import Mathlib

/-!
Shallow embedding of the media-detection fusion engine and presence
synchronization state machine of a desktop streaming-presence watcher
(main module `discord_presence.py`).

Modelling conventions:
* Python dictionaries become structures; an absent key becomes an `Option`
  field (or a field default mirroring `dict.get(key, default)`).
* A Python function returning `None` or a dict becomes `Option`.
* A raised-and-caught exception becomes `Except`.
* Strings are Lean `String`s; `pat in s` is substring containment,
  `str.lower()` maps `Char.toLower` (titles here are ASCII plus dashes).
* The two `re.match` grammars of the title parsers are embedded as explicit
  backtracking matchers with the lazy/greedy semantics of the source regexes.
-/

/-- Whitespace as matched by Python `\s` / stripped by `str.strip()` for the
character ranges occurring here (ASCII whitespace). -/
def pyIsSpace (c : Char) : Bool :=
  c == ' ' || c == '\t' || c == '\n' || c == '\r' || c == '\x0b' || c == '\x0c'

/-- `leadsWith pat s` : `pat` is an initial segment of `s`. -/
def leadsWith : List Char → List Char → Bool
  | [], _ => true
  | _ :: _, [] => false
  | p :: ps, c :: cs => p == c && leadsWith ps cs

/-- Python `pat in s` (substring containment) on character lists. -/
def hasSubCh (pat : List Char) : List Char → Bool
  | [] => leadsWith pat []
  | c :: cs => leadsWith pat (c :: cs) || hasSubCh pat cs

/-- Python `pat in s` on strings. -/
def strHas (s pat : String) : Bool :=
  hasSubCh pat.data s.data

/-- Python `s.startswith(pat)`. -/
def strLeads (s pat : String) : Bool :=
  leadsWith pat.data s.data

/-- Python `s.lower()` (ASCII case folding; the only non-ASCII character in
the source literals is a dash, which is case-invariant). -/
def lowerStr (s : String) : String :=
  String.mk (s.data.map Char.toLower)

/-- Python `s.strip()` on character lists. -/
def stripCh (l : List Char) : List Char :=
  ((l.dropWhile pyIsSpace).reverse.dropWhile pyIsSpace).reverse

/-- Python `s.strip()`. -/
def pyStrip (s : String) : String :=
  String.mk (stripCh s.data)

/-- Python `int` applied to a digit string. -/
def natOfDigits (l : List Char) : Nat :=
  l.foldl (fun n c => n * 10 + (c.toNat - 48)) 0

/-- Python `s.replace(pat, rep)` (all non-overlapping occurrences, left to
right) on character lists, with explicit fuel for termination; the fuel is
always set to the length of the scanned list, which suffices because every
step consumes at least one character. -/
def replaceAllCh (pat rep : List Char) : Nat → List Char → List Char
  | _, [] => []
  | 0, s => s
  | Nat.succ f, c :: cs =>
    if leadsWith pat (c :: cs) then
      rep ++ replaceAllCh pat rep f ((c :: cs).drop pat.length)
    else
      c :: replaceAllCh pat rep f cs

/-- Python `s.replace(pat, rep)`; the source never replaces an empty
pattern, so that case is returned unchanged. -/
def replaceAllStr (s pat rep : String) : String :=
  if pat.data.isEmpty then s
  else String.mk (replaceAllCh pat.data rep.data s.data.length s.data)

/-- Largest number `k` with `1 ≤ k ≤ n` such that position `k` of `r` holds a
character matchable by `.` (exists and is not a newline).  This realises the
backtracking split between a greedy `\s+` (which consumed positions
`0..k-1`) and a following `(.+)` starting at position `k`. -/
def bestK (r : List Char) : Nat → Option Nat
  | 0 => none
  | Nat.succ m =>
    if Nat.succ m < r.length && r.getD (Nat.succ m) '\n' != '\n' then
      some (Nat.succ m)
    else bestK r m

/-- Matches `\s+(.+)` at the head of `r` (unanchored at the right, as under
`re.match`), returning the text captured by `(.+)`: the greedy `(.+)` takes
every non-newline character from the chosen split onwards. -/
def seqWsDotPlus (r : List Char) : Option (List Char) :=
  match bestK r ((r.takeWhile pyIsSpace).length) with
  | some k => some ((r.drop k).takeWhile (fun c => c != '\n'))
  | none => none

/-- Matches `\s+S(\d+):E(\d+)(?:\s+(.+))?` at the head of `r` — the part of
the Netflix show regex `(.*? ):\s+S(\d+):E(\d+)(?:\s+(.+))?` after the colon.
`\s+` and `(\d+)` are greedy; since the characters required right after them
(`S`, `:`, `E`) are neither whitespace nor digits, greedy matching followed
by those literals is exact. -/
def matchTailA (r : List Char) : Option (Nat × Nat × Option (List Char)) :=
  if (r.takeWhile pyIsSpace).isEmpty then none
  else
    match r.dropWhile pyIsSpace with
    | 'S' :: r2 =>
      let d1 := r2.takeWhile Char.isDigit
      if d1.isEmpty then none
      else
        match r2.dropWhile Char.isDigit with
        | ':' :: 'E' :: r4 =>
          let d2 := r4.takeWhile Char.isDigit
          if d2.isEmpty then none
          else
            some (natOfDigits d1, natOfDigits d2,
              seqWsDotPlus (r4.dropWhile Char.isDigit))
        | _ => none
    | _ => none

/-- The lazy `(.*? ):` scan of the Netflix show regex: starting from the
shortest capture, try the tail after each `:`; the capture may not cross a
newline (`.` does not match one).  `acc` holds the reversed capture so far. -/
def scanA : List Char → List Char → Option (List Char × Nat × Nat × Option (List Char))
  | _, [] => none
  | acc, c :: rest =>
    if c == ':' then
      match matchTailA rest with
      | some (s, e, g4) => some (acc.reverse, s, e, g4)
      | none => scanA (c :: acc) rest
    else if c == '\n' then none
    else scanA (c :: acc) rest

/-- Matches `\s+-\s+S(\d+)E(\d+)(?:\s+-\s+(.+))?` at the head of `r` — the
part of the Disney show regex `(.*? )\s+-\s+S(\d+)E(\d+)(?:\s+-\s+(.+))?`
after the lazy capture. -/
def matchTailB (r : List Char) : Option (Nat × Nat × Option (List Char)) :=
  if (r.takeWhile pyIsSpace).isEmpty then none
  else
    match r.dropWhile pyIsSpace with
    | '-' :: r1 =>
      if (r1.takeWhile pyIsSpace).isEmpty then none
      else
        match r1.dropWhile pyIsSpace with
        | 'S' :: r2 =>
          let d1 := r2.takeWhile Char.isDigit
          if d1.isEmpty then none
          else
            match r2.dropWhile Char.isDigit with
            | 'E' :: r3 =>
              let d2 := r3.takeWhile Char.isDigit
              if d2.isEmpty then none
              else
                some (natOfDigits d1, natOfDigits d2,
                  optTailB (r3.dropWhile Char.isDigit))
            | _ => none
        | _ => none
    | _ => none
where
  /-- The optional `(?:\s+-\s+(.+))?` tail of the Disney show regex. -/
  optTailB (r : List Char) : Option (List Char) :=
    if (r.takeWhile pyIsSpace).isEmpty then none
    else
      match r.dropWhile pyIsSpace with
      | '-' :: r1 => seqWsDotPlus r1
      | _ => none

/-- The lazy `(.*? )` scan of the Disney show regex: try `matchTailB` after
every split, shortest capture first; the capture may not cross a newline. -/
def scanB : List Char → List Char → Option (List Char × Nat × Nat × Option (List Char))
  | acc, l =>
    match matchTailB l with
    | some (s, e, g4) => some (acc.reverse, s, e, g4)
    | none =>
      match l with
      | [] => none
      | c :: rest => if c == '\n' then none else scanB (c :: acc) rest

/-- `media_info["type"]` values produced by the detectors. -/
inductive MType where
  | movie
  | show
  | unknown
deriving DecidableEq

/-- The two supported services, the Python strings `"Netflix"` and
`"Disney+"`. -/
inductive Service where
  | netflix
  | disney
deriving DecidableEq

/-- Result dict of `parse_netflix_title` / `parse_disney_title`: keys
`title`, `type`, and — only for shows — `season`, `episode`,
`episodeTitle` (the latter may be present but `None`). -/
structure Parsed where
  title : String
  mtype : MType
  season : Option Nat := none
  episode : Option Nat := none
  episodeTitle : Option String := none
deriving DecidableEq

/-- `parse_netflix_title`: strips a literal `"Netflix - "` prefix, then
matches the show regex `(.*? ):\s+S(\d+):E(\d+)(?:\s+(.+))?` with
`re.match`; on no match the whole stripped title is a movie.  The episode
title is `group(4).strip()` when group 4 matched, else `None`. -/
def parse_netflix_title (title : String) : Parsed :=
  let t := if strLeads title "Netflix - " then title.drop 10 else title
  match scanA [] t.data with
  | some (g1, s, e, g4) =>
    { title := pyStrip (String.mk g1), mtype := .show, season := some s,
      episode := some e,
      episodeTitle := g4.map (fun l => pyStrip (String.mk l)) }
  | none => { title := pyStrip t, mtype := .movie }

/-- The Disney branding substrings removed (all occurrences, in this order)
by `parse_disney_title`. -/
def disneyPatterns : List String :=
  [" | Disney+", " - Disney+", " – Disney+", "Disney+"]

/-- Removal of the Disney branding substrings; `if pattern in s` followed by
`s.replace(pattern, "")` equals an unconditional replace. -/
def stripDisney (s : String) : String :=
  disneyPatterns.foldl (fun acc p => replaceAllStr acc p "") s

/-- `parse_disney_title`: strips a literal `"Disney+ - "` prefix and the
Disney branding substrings, strips whitespace, then matches the show regex
`(.*? )\s+-\s+S(\d+)E(\d+)(?:\s+-\s+(.+))?` with `re.match`; on no match the
cleaned title is a movie.  A matched episode title is stripped, re-cleaned of
branding, and stripped again. -/
def parse_disney_title (title : String) : Parsed :=
  let ct := if strLeads title "Disney+ - " then title.drop 10 else title
  let ct := pyStrip (stripDisney ct)
  match scanB [] ct.data with
  | some (g1, s, e, g4) =>
    { title := pyStrip (String.mk g1), mtype := .show, season := some s,
      episode := some e,
      episodeTitle :=
        g4.map (fun l => pyStrip (stripDisney (pyStrip (String.mk l)))) }
  | none => { title := pyStrip ct, mtype := .movie }

/-- A detection-result dict: `isWatching`, and — when watching — `service`,
`title`, `type`, optional `season` / `episode` / `episodeTitle`, and the
`detected_by_system` marker whose absence reads as `False`
(`media_info.get("detected_by_system", False)`). -/
structure MediaInfo where
  isWatching : Bool
  service : Option Service := none
  title : String := ""
  mtype : MType := .unknown
  season : Option Nat := none
  episode : Option Nat := none
  episodeTitle : Option String := none
  detected_by_system : Bool := false
deriving DecidableEq

/-- The literal dict `{"isWatching": False}`; every other key is absent
(reads as its `get` default). -/
def mkNotWatching : MediaInfo :=
  { isWatching := false }

/-- Extends a parser result dict with `isWatching`/`service` (and the
`detected_by_system` marker when set by `check_system_processes`). -/
def fromParsed (svc : Service) (dbs : Bool) (p : Parsed) : MediaInfo :=
  { isWatching := true, service := some svc, title := p.title,
    mtype := p.mtype, season := p.season, episode := p.episode,
    episodeTitle := p.episodeTitle, detected_by_system := dbs }

/-- One entry of `get_all_windows()`: `(hwnd, title, process_name)`;
`process_name` is `None` when the owning process could not be resolved. -/
structure Win where
  hwnd : Nat
  title : String
  procName : Option String
deriving DecidableEq

/-- One entry of `psutil.process_iter(['pid','name','cmdline'])` (the pid is
never consulted). -/
structure Proc where
  name : String
  cmdline : List String
deriving DecidableEq

/-- The operating-system facts a detection cycle reads: the process table,
the window list, the foreground window handle, and the foreground window
title. -/
structure SysState where
  processes : List Proc
  windows : List Win
  fg : Nat
  fgTitle : String
deriving DecidableEq

/-- `disney_process_names` of `check_system_processes`. -/
def disney_process_names : List String :=
  ["Disney+.exe", "WWAHost.exe", "ApplicationFrameHost.exe", "explorer.exe"]

/-- `netflix_process_names` of `check_system_processes`. -/
def netflix_process_names : List String :=
  ["Netflix.exe", "WWAHost.exe", "ApplicationFrameHost.exe"]

/-- First window whose title contains `DISNEY_APP_NAME = "Disney+"`. -/
def findDisneyWindow (ws : List Win) : Option Win :=
  ws.find? (fun w => strHas w.title "Disney+")

/-- First window whose title contains `NETFLIX_APP_NAME = "Netflix"`. -/
def findNetflixWindow (ws : List Win) : Option Win :=
  ws.find? (fun w => strHas w.title "Netflix")

/-- The generic fallback record for a confirmed Disney+ process with no
correlatable window. -/
def genericDisney : MediaInfo :=
  { isWatching := true, service := some .disney, title := "Disney+ Content",
    mtype := .unknown, detected_by_system := true }

/-- The generic fallback record for a confirmed Netflix process with no
correlatable window. -/
def genericNetflix : MediaInfo :=
  { isWatching := true, service := some .netflix, title := "Netflix Content",
    mtype := .unknown, detected_by_system := true }

/-- Tail of the Disney process branch: correlate a window title and parse
it, else return the generic record (`parse_disney_title` always returns a
truthy dict, so the parse branch always returns). -/
def disneyHostRest (ws : List Win) : MediaInfo :=
  match findDisneyWindow ws with
  | some w => fromParsed .disney true (parse_disney_title w.title)
  | none => genericDisney

/-- Tail of the Netflix process branch, symmetric to `disneyHostRest`. -/
def netflixHostRest (ws : List Win) : MediaInfo :=
  match findNetflixWindow ws with
  | some w => fromParsed .netflix true (parse_netflix_title w.title)
  | none => genericNetflix

/-- The Disney loop of `check_system_processes`: for each process whose name
equals (case-insensitively) one of `disney_process_names` — for a generic
host (`ApplicationFrameHost.exe`, `WWAHost.exe`, `explorer.exe`) without a
Disney term in its command line, require a window containing `"Disney+"`
(parsed and returned, else continue); otherwise correlate-or-generic. -/
def disney_loop (ws : List Win) : List Proc → Option MediaInfo
  | [] => none
  | p :: ps =>
    let pn := lowerStr p.name
    let cmd := lowerStr (String.intercalate " " p.cmdline)
    if disney_process_names.any (fun d => pn == lowerStr d) then
      if pn == "applicationframehost.exe" || pn == "wwahost.exe" ||
          pn == "explorer.exe" then
        if !(strHas cmd "disney" || strHas cmd "disneyplus") then
          match findDisneyWindow ws with
          | some w => some (fromParsed .disney true (parse_disney_title w.title))
          | none => disney_loop ws ps
        else some (disneyHostRest ws)
      else some (disneyHostRest ws)
    else disney_loop ws ps

/-- The Netflix loop of `check_system_processes` (generic hosts here are
only `ApplicationFrameHost.exe` and `WWAHost.exe`). -/
def netflix_loop (ws : List Win) : List Proc → Option MediaInfo
  | [] => none
  | p :: ps =>
    let pn := lowerStr p.name
    let cmd := lowerStr (String.intercalate " " p.cmdline)
    if netflix_process_names.any (fun d => pn == lowerStr d) then
      if pn == "applicationframehost.exe" || pn == "wwahost.exe" then
        if !(strHas cmd "netflix") then
          match findNetflixWindow ws with
          | some w => some (fromParsed .netflix true (parse_netflix_title w.title))
          | none => netflix_loop ws ps
        else some (netflixHostRest ws)
      else some (netflixHostRest ws)
    else netflix_loop ws ps

/-- Multi-tab markers of the trailing browser-window check of
`check_system_processes`. -/
def tailBrowserPatterns : List String :=
  ["more pages", "more tab", "and tab"]

/-- False-positive markers of the trailing browser-window check. -/
def tailFalsePositives : List String :=
  ["readme", ".md", "documentation", "github", "developer", "programming",
   "code", "disney + & netflix"]

/-- Trailing check of `check_system_processes`: a window whose title names a
service and carries a multi-tab marker yields a generic system-detected
record unless a false-positive marker is present. -/
def tail_browser_check : List Win → Option MediaInfo
  | [] => none
  | w :: ws =>
    if w.title = "" then tail_browser_check ws
    else if (strHas w.title "Netflix" || strHas w.title "Disney+") &&
        tailBrowserPatterns.any (fun p => strHas w.title p) then
      if tailFalsePositives.any (fun p => strHas (lowerStr w.title) p) then
        tail_browser_check ws
      else if strHas w.title "Netflix" then some genericNetflix
      else if strHas w.title "Disney+" then some genericDisney
      else tail_browser_check ws
    else tail_browser_check ws

/-- `check_system_processes`: the Disney loop, then the Netflix loop, then
the trailing browser-window check; `None` when all find nothing. -/
def check_system_processes (st : SysState) : Option MediaInfo :=
  match disney_loop st.windows st.processes with
  | some r => some r
  | none =>
    match netflix_loop st.windows st.processes with
    | some r => some r
    | none => tail_browser_check st.windows

/-- Window-title terms ignored by `check_native_apps` to avoid false
positives. -/
def ignoredNativeTitleTerms : List String :=
  [".env", "settings", "cursor", "code editor"]

/-- A candidate with its transient window handle, stripped before the record
is returned (`is_visible` / `is_running` are only logged and likewise
stripped; they are not modelled). -/
structure Cand where
  info : MediaInfo
  hwnd : Nat
deriving DecidableEq

/-- The all-windows scan of `check_native_apps` (the foreground window was
already handled and is skipped here); a window naming both services appends
two candidates, Netflix first, as the two `if`s are not exclusive. -/
def nativeScan (fgH : Nat) : List Win → List Cand
  | [] => []
  | w :: ws =>
    if w.hwnd = fgH then nativeScan fgH ws
    else if w.title = "" then nativeScan fgH ws
    else if ignoredNativeTitleTerms.any
        (fun p => strHas (lowerStr w.title) p) then nativeScan fgH ws
    else
      (if strHas w.title "Netflix" then
        [⟨fromParsed .netflix false (parse_netflix_title w.title), w.hwnd⟩]
      else []) ++
      (if strHas w.title "Disney+" then
        [⟨fromParsed .disney false (parse_disney_title w.title), w.hwnd⟩]
      else []) ++ nativeScan fgH ws

/-- `check_native_apps`: the foreground window first, then every other
window; selection prefers a candidate owning the foreground handle, else the
first candidate found, and strips the transient fields. -/
def check_native_apps (st : SysState) : Option MediaInfo :=
  let activeApps : List Cand :=
    (if strHas st.fgTitle "Netflix" then
      [⟨fromParsed .netflix false (parse_netflix_title st.fgTitle), st.fg⟩]
    else []) ++
    (if strHas st.fgTitle "Disney+" then
      [⟨fromParsed .disney false (parse_disney_title st.fgTitle), st.fg⟩]
    else [])
  let apps := activeApps ++ nativeScan st.fg st.windows
  if apps.isEmpty then none
  else
    match apps.find? (fun c => c.hwnd = st.fg) with
    | some c => some c.info
    | none => apps.head?.map (fun c => c.info)

/-- `SUPPORTED_BROWSERS` in dict insertion order. -/
def SUPPORTED_BROWSERS : List (String × String) :=
  [("chrome.exe", "Chrome"), ("msedge.exe", "Edge"),
   ("firefox.exe", "Firefox"), ("brave.exe", "Brave")]

/-- Documentation markers of the first filtering pass of
`check_browser_tabs`. -/
def docFilter1 : List String :=
  ["readme", ".md", "documentation", "github", ".txt", "license", "coding",
   "programming", "developer"]

/-- First per-browser window pass of `check_browser_tabs`.  The function
body assigns `clean_title = clean_title(title, service)`, which makes
`clean_title` a local variable of the whole function; reaching that call
therefore raises `UnboundLocalError` before any candidate is appended —
modelled as `Except.error ()` at exactly the points the source would call
the shadowed name. -/
def scanLoop1 (bp : String) : List Win → Except Unit (List Cand)
  | [] => .ok []
  | w :: ws =>
    match w.procName with
    | none => scanLoop1 bp ws
    | some pn =>
      if pn = "" || w.title = "" then scanLoop1 bp ws
      else if lowerStr pn != lowerStr bp then scanLoop1 bp ws
      else if docFilter1.any (fun p => strHas (lowerStr w.title) p) then
        scanLoop1 bp ws
      else if strHas w.title " - Netflix" || strHas w.title "Netflix" then
        if strHas (lowerStr w.title) "readme" ||
            strHas (lowerStr w.title) ".md" then scanLoop1 bp ws
        else .error ()
      else if strHas (lowerStr w.title) "disney+" ||
          strHas (lowerStr w.title) "disneyplus" then
        if strHas (lowerStr w.title) "readme" ||
            strHas (lowerStr w.title) ".md" then scanLoop1 bp ws
        else .error ()
      else scanLoop1 bp ws

/-- Second per-browser window pass of `check_browser_tabs` (URL fragments in
titles); like the first pass it reaches the shadowed `clean_title` before
any append. -/
def scanLoop2 (bp : String) : List Win → Except Unit (List Cand)
  | [] => .ok []
  | w :: ws =>
    match w.procName with
    | none => scanLoop2 bp ws
    | some pn =>
      if pn = "" || w.title = "" then scanLoop2 bp ws
      else if lowerStr pn == lowerStr bp then
        if strHas (lowerStr w.title) "disneyplus.com" ||
            strHas (lowerStr w.title) "disney+" then .error ()
        else if strHas (lowerStr w.title) "netflix.com" then .error ()
        else scanLoop2 bp ws
      else scanLoop2 bp ws

/-- `any(proc.name().lower() == browser_process.lower() for proc in ...)`. -/
def browserRunning (st : SysState) (bp : String) : Bool :=
  st.processes.any (fun p => lowerStr p.name == lowerStr bp)

/-- The per-browser `try` body of `check_browser_tabs`: both window passes;
an exception anywhere abandons the whole body for this browser. -/
def browserBody (bp : String) (ws : List Win) : Except Unit (List Cand) :=
  match scanLoop1 bp ws with
  | .error e => .error e
  | .ok l1 =>
    match scanLoop2 bp ws with
    | .error e => .error e
    | .ok l2 => .ok (l1 ++ l2)

/-- The outer browser loop of `check_browser_tabs`, accumulating
`streaming_windows`: a non-running browser is skipped, and a per-browser
exception keeps the candidates accumulated so far (`except: continue`). -/
def browser_accumulate (st : SysState) : List (String × String) → List Cand → List Cand
  | [], acc => acc
  | b :: bs, acc =>
    browser_accumulate st bs
      (if browserRunning st b.1 then
        match browserBody b.1 st.windows with
        | .ok l => acc ++ l
        | .error _ => acc
      else acc)

/-- `check_browser_tabs`: for each running supported browser run the window
passes, swallowing any per-browser exception; then prefer a streaming window
owning the foreground handle, else the first one found. -/
def check_browser_tabs (st : SysState) : Option MediaInfo :=
  let sw := browser_accumulate st SUPPORTED_BROWSERS []
  if sw.isEmpty then none
  else
    match sw.find? (fun c => c.hwnd = st.fg) with
    | some c => some c.info
    | none => sw.head?.map (fun c => c.info)

/-- Trace of one fusion cascade: the selected record and which collectors
were actually invoked this cycle. -/
structure FusionTrace where
  result : Option MediaInfo
  consultedSystem : Bool
  consultedNative : Bool
  consultedBrowser : Bool
deriving DecidableEq

/-- The strategy cascade opening `detect_media`: system processes first,
then native apps only if that found nothing, then browser tabs only if both
found nothing (each `if not media_info:` test short-circuits the later
collectors). -/
def detect_cascade (c1 c2 c3 : SysState → Option MediaInfo) (st : SysState) :
    FusionTrace :=
  match c1 st with
  | some m =>
    { result := some m, consultedSystem := true, consultedNative := false,
      consultedBrowser := false }
  | none =>
    match c2 st with
    | some m =>
      { result := some m, consultedSystem := true, consultedNative := true,
        consultedBrowser := false }
    | none =>
      { result := c3 st, consultedSystem := true, consultedNative := true,
        consultedBrowser := true }

/-- The cascade instantiated with the three real collectors. -/
def detect_fusion (st : SysState) : FusionTrace :=
  detect_cascade check_system_processes check_native_apps check_browser_tabs st

/-- The three resolved client identities (lines 36-38): per-service ids
default to the main id when the environment variable is unset. -/
structure Config where
  discordId : Nat
  disneyId : Nat
  netflixId : Nat
deriving DecidableEq

/-- Environment resolution `X_CLIENT_ID = os.getenv(...) or DISCORD_CLIENT_ID`. -/
def mkConfig (discord : Nat) (disney netflix : Option Nat) : Config :=
  { discordId := discord, disneyId := disney.getD discord,
    netflixId := netflix.getD discord }

/-- Client-id selection of the reconnect block in `detect_media`
(lines 1260-1267). -/
def select_client_id (cfg : Config) : Option Service → Nat
  | some .disney => cfg.disneyId
  | some .netflix => cfg.netflixId
  | none => cfg.discordId

/-- The transport-timeout signature matched against a failed basic update
(`"No response was received from the pipe in time" in str(e)`). -/
def pipeTimeoutSig : String :=
  "No response was received from the pipe in time"

/-- Observable behaviour of one `reconnect_discord` call. -/
structure ReconnectTrace where
  closedOld : Bool
  cooldownSeconds : Nat
  openedId : Nat
deriving DecidableEq

/-- `reconnect_discord`: closes the old connection inside a bare
`try/except` (errors ignored), sleeps 3 seconds, then opens
`Presence(DISCORD_CLIENT_ID)` — always the default id, whatever identity the
current service selected. -/
def reconnect_discord (cfg : Config) : ReconnectTrace :=
  { closedOld := true, cooldownSeconds := 3, openedId := cfg.discordId }

/-- Observable behaviour of the tier-1 error path of `update_presence`. -/
structure Tier1Trace where
  reconnected : Option ReconnectTrace
deriving DecidableEq

/-- Tier-1 error handling of `update_presence`: when the basic update raised
`e` and `str(e)` carries the pipe-timeout signature, `reconnect_discord` is
invoked (followed by one retry); any other failure gives the tier up. -/
def update_presence_tier1 (cfg : Config) (firstErr : Option String) :
    Tier1Trace :=
  match firstErr with
  | none => { reconnected := none }
  | some e =>
    if strHas e pipeTimeoutSig then
      { reconnected := some (reconnect_discord cfg) }
    else { reconnected := none }

/-- The mutable globals of the detection loop: `current_media`,
`start_timestamp` (never cleared on clearing the presence), and the `rpc`
global (`none` when the name is unset; `some id` holds the client id the
`Presence` object was built with — a constructed object is truthy even if
its `connect()` failed). -/
structure AppState where
  current_media : Option MediaInfo
  start_timestamp : Option Nat
  rpc : Option Nat
deriving DecidableEq

/-- Externally observable actions of one `detect_media` cycle. -/
structure Effects where
  clearRequests : Nat := 0
  ignoreFilterApplied : Bool := false
  imageLookups : Nat := 0
  pushed : Option MediaInfo := none
  pushTimestamp : Option Nat := none
  pushSucceeded : Option Bool := none
  closedForReconnect : Bool := false
  openedId : Option Nat := none
deriving DecidableEq

/-- Blanket documentation markers of the aggressive filter in
`detect_media` (first branch). -/
def docTermsAggressive : List String := ["readme", ".md", "documentation"]

/-- Development-artifact markers of the aggressive filter (second branch). -/
def devTermsAggressive : List String :=
  ["repo", "repository", "project", "folder", "file", "code", "github"]

/-- Project-name markers of the aggressive filter (third branch). -/
def projTermsAggressive : List String := ["disney + & netflix", "streaming"]

/-- The "super aggressive" blanket filter of `detect_media` (lines
1144-1167), applied to every watching record regardless of provenance; only
its final minimum-length rule is conditioned on `detected_by_system`.  A hit
replaces the record with the literal `{"isWatching": False}`. -/
def aggressive_filter (m : MediaInfo) : MediaInfo :=
  if !m.isWatching then m
  else
    let title := lowerStr m.title
    if strHas title "readme" || strHas title ".md" ||
        strHas title "documentation" then mkNotWatching
    else if devTermsAggressive.any (fun p => strHas title p) then mkNotWatching
    else if projTermsAggressive.any (fun p => strHas title p) then mkNotWatching
    else if title.length < 5 && !m.detected_by_system then mkNotWatching
    else m

/-- `ignore_patterns` of `detect_media` (lines 1192-1202). -/
def ignore_patterns : List String :=
  [".env", "settings", "config", "cursor", "visual studio", "vscode",
   "code editor", "discord", "settings.json", "explorer", "file", "folder",
   "cmd", "command", "powershell", "terminal", "python", "readme", "github",
   ".md", "markdown", "documentation", "notepad", "editor", "setting",
   "preference", "profile", "account", "login", "sign in", "guide",
   "tutorial", "help", "support", "download", "upload", "install", "setup",
   "configure", "json", "xml", "yaml", "ini", "conf", "log", "txt", "text",
   "document", "license", "copyright", "about", "information", "readme.md",
   "cursor", "disney + & netflix", "streaming", "presence", "rich presence",
   "discord presence"]

/-- The second-stage false-positive rejection of `detect_media`: applied
only when the record is *not* system-corroborated. -/
def ignore_rejected (m : MediaInfo) : Bool :=
  !m.detected_by_system &&
    ignore_patterns.any (fun p => strHas (lowerStr m.title) (lowerStr p))

/-- The forced-refresh test `start_timestamp and
(current_time - start_timestamp) % 180 < 5` (Python truthiness: a timestamp
of 0 is falsy; the subtraction and modulo are over the integers with a
non-negative remainder). -/
def forceUpdateAt (ts : Option Nat) (t : Nat) : Bool :=
  match ts with
  | none => false
  | some v => v != 0 && decide ((((t : Int)) - ((v : Int))) % 180 < 5)

/-- Python truthiness test `not start_timestamp`. -/
def tsFalsy : Option Nat → Bool
  | none => true
  | some v => v == 0

/-- The content-change test of `detect_media` (lines 1236-1240), in source
order: new session, or service / title / episode / season differ. -/
def contentChanged (cm : Option MediaInfo) (m : MediaInfo) : Bool :=
  match cm with
  | none => true
  | some c =>
    decide (m.service ≠ c.service) || decide (m.title ≠ c.title) ||
      decide (m.episode ≠ c.episode) || decide (m.season ≠ c.season)

/-- `service_changed` (lines 1222-1223): a snapshot exists and its service
differs from the new record's. -/
def service_changed_check (cm : Option MediaInfo) (m : MediaInfo) : Bool :=
  match cm with
  | none => false
  | some c => decide (c.service ≠ m.service)

/-- Clearing path of `detect_media`: with a snapshot, drop it and issue one
clear request if the `rpc` global is set (`start_timestamp` is left alone);
without one, a no-op. -/
def clear_presence_branch (st : AppState) (ignored : Bool) :
    AppState × Effects :=
  if st.current_media.isSome then
    ({ st with current_media := none },
     { clearRequests := if st.rpc.isSome then 1 else 0,
       ignoreFilterApplied := ignored })
  else (st, { ignoreFilterApplied := ignored })

/-- The update branch of `detect_media` (lines 1242-1288): maybe reset the
timestamp, maybe tear down and reopen the connection under the service's
client id (`openOk` is whether the `Presence` constructor succeeds; on
failure the `rpc` global keeps its previous value), replace the snapshot
*before* any push, and — only if an `rpc` object now exists — look up the
artwork once and attempt the push (`pushOk` is the external outcome of
`update_presence`, which the caller never reads). -/
def sync_branch (cfg : Config) (openOk pushOk : Bool) (st : AppState)
    (m : MediaInfo) (t : Nat) : AppState × Effects :=
  let force := forceUpdateAt st.start_timestamp t
  let new_ts := if !force || tsFalsy st.start_timestamp then some t
    else st.start_timestamp
  let needReconn := service_changed_check st.current_media m || st.rpc.isNone
  let cid := select_client_id cfg m.service
  let rpc1 := if needReconn then (if openOk then some cid else st.rpc)
    else st.rpc
  let closed := needReconn && st.rpc.isSome
  let e0 : Effects :=
    { clearRequests := if closed then 1 else 0, closedForReconnect := closed,
      openedId := if needReconn && openOk then some cid else none }
  ({ current_media := some m, start_timestamp := new_ts, rpc := rpc1 },
   if rpc1.isNone then e0
   else
     { e0 with
       imageLookups := 1, pushed := some m, pushTimestamp := new_ts,
       pushSucceeded := some pushOk })

/-- One `detect_media` cycle after the collector cascade: default the fused
result to `{"isWatching": False}`, run the aggressive blanket filter, clear
when not watching, apply the second-stage ignore list to
non-system-corroborated records, then enter the update branch on a content
change or a forced refresh, else no-op. -/
def detect_media_step (cfg : Config) (openOk pushOk : Bool) (st : AppState)
    (media0 : Option MediaInfo) (t : Nat) : AppState × Effects :=
  let media_info := aggressive_filter (media0.getD mkNotWatching)
  if !media_info.isWatching then clear_presence_branch st false
  else if ignore_rejected media_info then clear_presence_branch st true
  else if contentChanged st.current_media media_info ||
      forceUpdateAt st.start_timestamp t then
    sync_branch cfg openOk pushOk st media_info t
  else (st, {})

/-- A whole `detect_media` cycle: cascade over the three collectors, then
the filter / state-machine step. -/
def detect_media (cfg : Config) (openOk pushOk : Bool) (st : AppState)
    (sys : SysState) (t : Nat) : AppState × Effects :=
  detect_media_step cfg openOk pushOk st (detect_fusion sys).result t

/-! Concrete fixtures used by the theorems below. -/

/-- A configuration whose three client identities are pairwise distinct. -/
def cfgW : Config := { discordId := 1, disneyId := 2, netflixId := 3 }

/-- A fully parsed Netflix episode record (not system-corroborated). -/
def mShowA1 : MediaInfo :=
  { isWatching := true, service := some .netflix, title := "Stranger Things",
    mtype := .show, season := some 1, episode := some 1,
    episodeTitle := some "Chapter One" }

/-- The same show, next episode. -/
def mShowA2 : MediaInfo := { mShowA1 with episode := some 2 }

/-- The same record marked as system-corroborated. -/
def mShowSys : MediaInfo := { mShowA1 with detected_by_system := true }

/-- A Netflix movie record with a different title. -/
def mCrown : MediaInfo :=
  { isWatching := true, service := some .netflix, title := "The Crown",
    mtype := .movie }

/-- Globals of an idle session. -/
def stIdle : AppState :=
  { current_media := none, start_timestamp := none, rpc := none }

/-- Globals while watching `mShowA1` with a connection opened under the
Netflix client id. -/
def stWatching : AppState :=
  { current_media := some mShowA1, start_timestamp := some 1000,
    rpc := some 3 }

/-- Globals while watching `mShowA1` with no `rpc` object. -/
def stWatchingNoRpc : AppState :=
  { current_media := some mShowA1, start_timestamp := some 1000, rpc := none }

/-- A system state where only `explorer.exe` runs and a documentation-like
window title mentions Disney+. -/
def sysExplorerDisney : SysState :=
  { processes := [{ name := "explorer.exe", cmdline := [] }],
    windows := [⟨1, "Project Files - Disney+", some "explorer.exe"⟩],
    fg := 0, fgTitle := "" }

/-- The record `check_system_processes` produces on `sysExplorerDisney`. -/
def recProjectFiles : MediaInfo :=
  { isWatching := true, service := some .disney, title := "Project Files",
    mtype := .movie, detected_by_system := true }

/-- A system state where the Disney+ app itself runs with one titled
window. -/
def sysDisneyApp : SysState :=
  { processes := [{ name := "Disney+.exe", cmdline := [] }],
    windows := [⟨1, "Some Show - Disney+", some "x"⟩],
    fg := 0, fgTitle := "" }

/-- The record `check_system_processes` produces on `sysDisneyApp`. -/
def recSomeShow : MediaInfo :=
  { isWatching := true, service := some .disney, title := "Some Show",
    mtype := .movie, detected_by_system := true }

/-! Theorems. -/

/-- Claim C9: parsing the raw title `"Stranger Things: S1:E1 Chapter One"`
under the Netflix service returns title `"Stranger Things"`, media type
show, season 1, episode 1 and episode title `"Chapter One"`. -/
theorem c9_netflix_parse_example :
    parse_netflix_title "Stranger Things: S1:E1 Chapter One" =
      { title := "Stranger Things", mtype := .show, season := some 1,
        episode := some 1, episodeTitle := some "Chapter One" } := by
  decide

/-- Claim C5, counterexample: with pairwise distinct client identities and
the Netflix identity currently selected (`select_client_id` yields 3), a
tier-1 pipe-timeout reconnect reopens under the default identity 1, not the
selected one. -/
theorem c5_reconnect_identity_counterexample :
    select_client_id cfgW (some .netflix) = 3 ∧
    (update_presence_tier1 cfgW (some pipeTimeoutSig)).reconnected =
      some { closedOld := true, cooldownSeconds := 3, openedId := 1 } ∧
    (1 : Nat) ≠ 3 := by
  decide

/-- Claim C5, amended: whenever a tier-1 update fails with the known
transport-timeout signature, the reconnect procedure closes the existing
connection ignoring errors, waits the fixed 3-second cooldown, and reopens
the connection under the *default* client identity, regardless of which
service-specific identity is currently selected. -/
theorem c5_reconnect_identity_amended (cfg : Config) (e : String)
    (h : strHas e pipeTimeoutSig = true) :
    update_presence_tier1 cfg (some e) =
      { reconnected := some ⟨true, 3, cfg.discordId⟩ } := by
  simp [update_presence_tier1, reconnect_discord, h]

/-- Witness for the amended C5 theorem at a concrete error string and
configuration. -/
theorem c5_reconnect_identity_amended_witness :
    strHas pipeTimeoutSig pipeTimeoutSig = true ∧
    update_presence_tier1 cfgW (some pipeTimeoutSig) =
      { reconnected := some ⟨true, 3, cfgW.discordId⟩ } :=
  ⟨by decide, c5_reconnect_identity_amended cfgW pipeTimeoutSig (by decide)⟩

/-- Claim C1: the fusion cascade consults the collectors in the fixed order
system-process, native-app, browser-tab; whenever `check_system_processes`
returns a record, the fused result is that record and the other two
collectors are not consulted, and the browser-tab collector is consulted
exactly when the first two return nothing. -/
theorem c1_system_process_priority (st : SysState) :
    (∀ m, check_system_processes st = some m →
      (detect_fusion st).result = some m ∧
      (detect_fusion st).consultedNative = false ∧
      (detect_fusion st).consultedBrowser = false) ∧
    ((detect_fusion st).consultedBrowser = true ↔
      check_system_processes st = none ∧ check_native_apps st = none) := by
  constructor
  · intro m h
    simp [detect_fusion, detect_cascade, h]
  · unfold detect_fusion detect_cascade
    cases h1 : check_system_processes st with
    | some m => simp
    | none =>
      cases h2 : check_native_apps st with
      | some m => simp
      | none => simp

/-- Witness for C1 at a concrete system state on which the system-process
collector returns a record. -/
theorem c1_system_process_priority_witness :
    check_system_processes sysDisneyApp = some recSomeShow ∧
    ((detect_fusion sysDisneyApp).result = some recSomeShow ∧
     (detect_fusion sysDisneyApp).consultedNative = false ∧
     (detect_fusion sysDisneyApp).consultedBrowser = false) :=
  ⟨by decide,
   (c1_system_process_priority sysDisneyApp).1 recSomeShow (by decide)⟩

/-- Helper: the first browser window pass never produces a candidate — every
branch that would build one raises at the shadowed `clean_title` first. -/
theorem scanLoop1_ok_nil (bp : String) :
    ∀ ws l, scanLoop1 bp ws = Except.ok l → l = [] := by
  intro ws
  induction ws with
  | nil =>
    intro l h
    simp only [scanLoop1] at h
    exact (Except.ok.injEq _ _).mp h |>.symm
  | cons w ws ih =>
    intro l h
    simp only [scanLoop1] at h
    repeat' split at h
    all_goals first
      | exact ih _ h
      | simp_all

/-- Helper: likewise for the second (URL) pass. -/
theorem scanLoop2_ok_nil (bp : String) :
    ∀ ws l, scanLoop2 bp ws = Except.ok l → l = [] := by
  intro ws
  induction ws with
  | nil =>
    intro l h
    simp only [scanLoop2] at h
    exact (Except.ok.injEq _ _).mp h |>.symm
  | cons w ws ih =>
    intro l h
    simp only [scanLoop2] at h
    repeat' split at h
    all_goals first
      | exact ih _ h
      | simp_all

/-- Helper: a per-browser body that does not raise produced no candidate. -/
theorem browserBody_ok_nil (bp : String) (ws : List Win) (l : List Cand)
    (h : browserBody bp ws = Except.ok l) : l = [] := by
  unfold browserBody at h
  cases h1 : scanLoop1 bp ws with
  | error e => rw [h1] at h; cases h
  | ok l1 =>
    rw [h1] at h
    cases h2 : scanLoop2 bp ws with
    | error e => rw [h2] at h; cases h
    | ok l2 =>
      rw [h2] at h
      have e1 := scanLoop1_ok_nil bp ws l1 h1
      have e2 := scanLoop2_ok_nil bp ws l2 h2
      subst e1; subst e2
      simpa using ((Except.ok.injEq _ _).mp h).symm

/-- Helper: the outer browser loop keeps the accumulator empty. -/
theorem browser_accumulate_nil (st : SysState) :
    ∀ bs : List (String × String), browser_accumulate st bs [] = [] := by
  intro bs
  induction bs with
  | nil => rfl
  | cons b bs ih =>
    rw [browser_accumulate]
    split
    · cases hb : browserBody b.1 st.windows with
      | ok l =>
        have : l = [] := browserBody_ok_nil _ _ _ hb
        subst this
        simpa using ih
      | error e => simpa using ih
    · exact ih

/-- Claim C4: the browser-tab collector can never produce a candidate — the
local rebinding of `clean_title` makes its first use raise
`UnboundLocalError`, the per-browser handler swallows it, and
`check_browser_tabs` returns `None` on every input. -/
theorem c4_browser_collector_none (st : SysState) :
    check_browser_tabs st = none := by
  unfold check_browser_tabs
  rw [browser_accumulate_nil]
  rfl


/-- Helper: the aggressive blanket filter either passes a record through or
replaces it with the literal not-watching dict. -/
theorem aggressive_filter_cases (m : MediaInfo) :
    aggressive_filter m = m ∨ aggressive_filter m = mkNotWatching := by
  simp only [aggressive_filter]
  split
  · exact Or.inl rfl
  · split
    · exact Or.inr rfl
    · split
      · exact Or.inr rfl
      · split
        · exact Or.inr rfl
        · split
          · exact Or.inr rfl
          · exact Or.inl rfl

/-- Helper: a record that is still watching after the blanket filter was
passed through unchanged. -/
theorem aggressive_filter_watching (m : MediaInfo)
    (h : (aggressive_filter m).isWatching = true) : aggressive_filter m = m := by
  rcases aggressive_filter_cases m with hc | hc
  · exact hc
  · rw [hc] at h
    simp [mkNotWatching] at h

/-- Helper: a cycle that fires the forced-refresh timer has a truthy stored
timestamp. -/
theorem force_tsFalsy (ts : Option Nat) (t : Nat)
    (h : forceUpdateAt ts t = true) : tsFalsy ts = false := by
  cases ts with
  | none => simp [forceUpdateAt] at h
  | some v =>
    simp [forceUpdateAt] at h
    simpa [tsFalsy] using h.1

/-- Helper: unchanged content implies an existing snapshot of the same
service. -/
theorem contentChanged_false_svc (cm : Option MediaInfo) (m : MediaInfo)
    (h : contentChanged cm m = false) :
    service_changed_check cm m = false ∧ cm.isSome = true := by
  cases cm with
  | none => simp [contentChanged] at h
  | some c =>
    simp only [contentChanged, Bool.or_eq_false_iff,
      decide_eq_false_iff_not, not_not] at h
    refine ⟨?_, rfl⟩
    simp only [service_changed_check, decide_eq_false_iff_not, not_not]
    exact h.1.1.1.symm

/-- Helper: a watching record that passes both filters reduces a cycle to
the update-or-noop decision. -/
theorem detect_media_step_watching (cfg : Config) (openOk pushOk : Bool)
    (st : AppState) (m : MediaInfo) (t : Nat)
    (h1 : aggressive_filter m = m) (h2 : m.isWatching = true)
    (h3 : ignore_rejected m = false) :
    detect_media_step cfg openOk pushOk st (some m) t =
      if contentChanged st.current_media m ||
          forceUpdateAt st.start_timestamp t then
        sync_branch cfg openOk pushOk st m t
      else (st, {}) := by
  simp only [detect_media_step, Option.getD, h1, h2, h3, Bool.not_true,
    Bool.false_eq_true, if_false]

/-- Helper: the snapshot the update branch installs. -/
theorem sync_branch_current (cfg : Config) (openOk pushOk : Bool)
    (st : AppState) (m : MediaInfo) (t : Nat) :
    (sync_branch cfg openOk pushOk st m t).1.current_media = some m := rfl

/-- Helper: the timestamp the update branch installs. -/
theorem sync_branch_start (cfg : Config) (openOk pushOk : Bool)
    (st : AppState) (m : MediaInfo) (t : Nat) :
    (sync_branch cfg openOk pushOk st m t).1.start_timestamp =
      (if !forceUpdateAt st.start_timestamp t || tsFalsy st.start_timestamp
        then some t else st.start_timestamp) := rfl

/-- Helper: the connection object the update branch leaves behind. -/
theorem sync_branch_rpc (cfg : Config) (openOk pushOk : Bool)
    (st : AppState) (m : MediaInfo) (t : Nat) :
    (sync_branch cfg openOk pushOk st m t).1.rpc =
      (if service_changed_check st.current_media m || st.rpc.isNone then
        (if openOk then some (select_client_id cfg m.service) else st.rpc)
      else st.rpc) := rfl

/-- Helper: the update branch performs the image lookup and the push exactly
when an `rpc` object exists afterwards, pushing the new record with the
installed timestamp. -/
theorem sync_branch_push (cfg : Config) (openOk pushOk : Bool)
    (st : AppState) (m : MediaInfo) (t : Nat) :
    (sync_branch cfg openOk pushOk st m t).2.imageLookups =
      (if (sync_branch cfg openOk pushOk st m t).1.rpc.isSome then 1 else 0) ∧
    (sync_branch cfg openOk pushOk st m t).2.pushed =
      (if (sync_branch cfg openOk pushOk st m t).1.rpc.isSome then some m
        else none) ∧
    (sync_branch cfg openOk pushOk st m t).2.pushTimestamp =
      (if (sync_branch cfg openOk pushOk st m t).1.rpc.isSome then
        (sync_branch cfg openOk pushOk st m t).1.start_timestamp else none) := by
  simp only [sync_branch]
  repeat' split
  all_goals simp_all

/-- Claim C3, counterexample: watching `mShowA1` since time 1000, a cycle at
time 1180 (inside the forced-refresh window) detecting the next episode is a
content change, yet the timestamp is *not* reset to 1180 — the
forced-refresh test suppresses the reset even on a content change. -/
theorem c3_timestamp_counterexample :
    contentChanged stWatching.current_media mShowA2 = true ∧
    forceUpdateAt stWatching.start_timestamp 1180 = true ∧
    (detect_media_step cfgW true true stWatching
      (some mShowA2) 1180).1.start_timestamp = some 1000 ∧
    (some 1000 : Option Nat) ≠ some 1180 := by
  decide

/-- Claim C3, amended: the timestamp is reset exactly on update cycles in
which the forced-refresh window is not simultaneously open: a content change
with the timer quiescent resets it to now; any cycle in which the timer
fires (including one coinciding with a content change) keeps the original
timestamp; and a forced refresh of unchanged content with a live connection
re-pushes the same record with the original timestamp. -/
theorem c3_timestamp_amended (cfg : Config) (openOk pushOk : Bool)
    (st : AppState) (m : MediaInfo) (t : Nat)
    (h1 : aggressive_filter m = m) (h2 : m.isWatching = true)
    (h3 : ignore_rejected m = false) :
    (contentChanged st.current_media m = true →
      forceUpdateAt st.start_timestamp t = false →
      (detect_media_step cfg openOk pushOk st (some m) t).1.start_timestamp =
        some t) ∧
    (forceUpdateAt st.start_timestamp t = true →
      (detect_media_step cfg openOk pushOk st (some m) t).1.start_timestamp =
        st.start_timestamp) ∧
    (contentChanged st.current_media m = false →
      forceUpdateAt st.start_timestamp t = true → st.rpc.isSome = true →
      (detect_media_step cfg openOk pushOk st (some m) t).2.pushed = some m ∧
      (detect_media_step cfg openOk pushOk st (some m) t).2.pushTimestamp =
        st.start_timestamp) := by
  rw [detect_media_step_watching cfg openOk pushOk st m t h1 h2 h3]
  refine ⟨?_, ?_, ?_⟩
  · intro hc hf
    simp only [hc, hf, Bool.or_false, if_true]
    rw [sync_branch_start]
    simp [hf]
  · intro hf
    have hts := force_tsFalsy st.start_timestamp t hf
    simp only [hf, Bool.or_true, if_true]
    rw [sync_branch_start]
    simp [hf, hts]
  · intro hc hf hrpc
    have hts := force_tsFalsy st.start_timestamp t hf
    obtain ⟨hsvc, -⟩ := contentChanged_false_svc st.current_media m hc
    simp only [hc, hf, Bool.or_true, if_true]
    obtain ⟨c, hcx⟩ := Option.isSome_iff_exists.mp hrpc
    have hrpcval : (sync_branch cfg openOk pushOk st m t).1.rpc = some c := by
      rw [sync_branch_rpc, hsvc, hcx]
      simp
    have hsome : (sync_branch cfg openOk pushOk st m t).1.rpc.isSome = true := by
      rw [hrpcval]; rfl
    obtain ⟨hi, hp, hpt⟩ := sync_branch_push cfg openOk pushOk st m t
    rw [hp, hpt, hsome]
    simp [sync_branch_start, hf, hts]

/-- Witness for the amended C3 theorem at a content change at time 1090 with
the timer quiescent. -/
theorem c3_timestamp_amended_witness :
    (aggressive_filter mShowA2 = mShowA2 ∧ mShowA2.isWatching = true ∧
     ignore_rejected mShowA2 = false) ∧
    ((contentChanged stWatching.current_media mShowA2 = true →
      forceUpdateAt stWatching.start_timestamp 1090 = false →
      (detect_media_step cfgW true true stWatching
        (some mShowA2) 1090).1.start_timestamp = some 1090) ∧
    (forceUpdateAt stWatching.start_timestamp 1090 = true →
      (detect_media_step cfgW true true stWatching
        (some mShowA2) 1090).1.start_timestamp = stWatching.start_timestamp) ∧
    (contentChanged stWatching.current_media mShowA2 = false →
      forceUpdateAt stWatching.start_timestamp 1090 = true →
      stWatching.rpc.isSome = true →
      (detect_media_step cfgW true true stWatching
        (some mShowA2) 1090).2.pushed = some mShowA2 ∧
      (detect_media_step cfgW true true stWatching
        (some mShowA2) 1090).2.pushTimestamp = stWatching.start_timestamp)) :=
  ⟨⟨by decide, by decide, by decide⟩,
   c3_timestamp_amended cfgW true true stWatching mShowA2 1090
     (by decide) (by decide) (by decide)⟩

/-- Helper: the clearing path reports the ignore-filter flag it was given. -/
theorem clear_branch_ignore (st : AppState) (ig : Bool) :
    (clear_presence_branch st ig).2.ignoreFilterApplied = ig := by
  unfold clear_presence_branch
  split <;> rfl

/-- Helper: the update branch never reports the ignore filter. -/
theorem sync_branch_ignore (cfg : Config) (openOk pushOk : Bool)
    (st : AppState) (m : MediaInfo) (t : Nat) :
    (sync_branch cfg openOk pushOk st m t).2.ignoreFilterApplied = false := by
  simp only [sync_branch]
  repeat' split
  all_goals rfl

/-- Claim C7, counterexample: a not-watching cycle from a Watching state with
no `rpc` object clears the snapshot but issues zero clear requests, not
exactly one. -/
theorem c7_clear_counterexample :
    (detect_media_step cfgW true true stWatchingNoRpc none 1090).1.current_media
      = none ∧
    (detect_media_step cfgW true true stWatchingNoRpc none 1090).2.clearRequests
      = 0 ∧
    (0 : Nat) ≠ 1 := by
  decide

/-- Claim C7, amended: on a cycle whose fused detection is not watching, a
Watching state clears the snapshot, leaves timestamp and connection alone,
pushes nothing, and issues exactly one clear request when an `rpc` object
exists and none otherwise; an Idle state is a strict no-op. -/
theorem c7_clear_amended (cfg : Config) (openOk pushOk : Bool)
    (st : AppState) (media0 : Option MediaInfo) (t : Nat)
    (h : (aggressive_filter (media0.getD mkNotWatching)).isWatching = false) :
    (st.current_media.isSome = true →
      (detect_media_step cfg openOk pushOk st media0 t).1.current_media =
        none ∧
      (detect_media_step cfg openOk pushOk st media0 t).1.start_timestamp =
        st.start_timestamp ∧
      (detect_media_step cfg openOk pushOk st media0 t).1.rpc = st.rpc ∧
      (detect_media_step cfg openOk pushOk st media0 t).2 =
        { clearRequests := if st.rpc.isSome then 1 else 0 }) ∧
    (st.current_media = none →
      (detect_media_step cfg openOk pushOk st media0 t).1 = st ∧
      (detect_media_step cfg openOk pushOk st media0 t).2 = {}) := by
  have hstep : detect_media_step cfg openOk pushOk st media0 t =
      clear_presence_branch st false := by
    simp only [detect_media_step, h, Bool.not_false, if_true]
  rw [hstep]
  constructor
  · intro hcm
    simp [clear_presence_branch, hcm]
  · intro hcm
    simp [clear_presence_branch, hcm]

/-- Witness for the amended C7 theorem: a not-watching cycle from a Watching
state with a live connection issues exactly one clear request. -/
theorem c7_clear_amended_witness :
    (aggressive_filter ((none : Option MediaInfo).getD
      mkNotWatching)).isWatching = false ∧
    ((stWatching.current_media.isSome = true →
      (detect_media_step cfgW true true stWatching none 1090).1.current_media =
        none ∧
      (detect_media_step cfgW true true stWatching none 1090).1.start_timestamp
        = stWatching.start_timestamp ∧
      (detect_media_step cfgW true true stWatching none 1090).1.rpc =
        stWatching.rpc ∧
      (detect_media_step cfgW true true stWatching none 1090).2 =
        { clearRequests := if stWatching.rpc.isSome then 1 else 0 }) ∧
    (stWatching.current_media = none →
      (detect_media_step cfgW true true stWatching none 1090).1 = stWatching ∧
      (detect_media_step cfgW true true stWatching none 1090).2 = {})) :=
  ⟨by decide, c7_clear_amended cfgW true true stWatching none 1090 (by decide)⟩

/-- Claim C6, counterexample: a content-change cycle whose push attempt fails
(`pushSucceeded = some false`) still replaces the snapshot with the new
record instead of retaining the previous one. -/
theorem c6_snapshot_counterexample :
    (detect_media_step cfgW true false stWatching
      (some mCrown) 1090).2.pushSucceeded = some false ∧
    (detect_media_step cfgW true false stWatching
      (some mCrown) 1090).1.current_media = some mCrown ∧
    (some mCrown : Option MediaInfo) ≠ some mShowA1 := by
  decide

/-- Claim C6, amended: on every update cycle (content change or forced
refresh) the snapshot is replaced wholesale with the new record *before* the
push, regardless of whether the push succeeds, fails, or is skipped; on a
no-op cycle it is retained; and the resulting globals never depend on the
push outcome. -/
theorem c6_snapshot_amended (cfg : Config) (openOk pushOk pushOk2 : Bool)
    (st : AppState) (m : MediaInfo) (t : Nat)
    (h1 : aggressive_filter m = m) (h2 : m.isWatching = true)
    (h3 : ignore_rejected m = false) :
    ((contentChanged st.current_media m ||
        forceUpdateAt st.start_timestamp t) = true →
      (detect_media_step cfg openOk pushOk st (some m) t).1.current_media =
        some m) ∧
    ((contentChanged st.current_media m ||
        forceUpdateAt st.start_timestamp t) = false →
      (detect_media_step cfg openOk pushOk st (some m) t).1.current_media =
        st.current_media) ∧
    (detect_media_step cfg openOk pushOk st (some m) t).1 =
      (detect_media_step cfg openOk pushOk2 st (some m) t).1 := by
  rw [detect_media_step_watching cfg openOk pushOk st m t h1 h2 h3,
    detect_media_step_watching cfg openOk pushOk2 st m t h1 h2 h3]
  refine ⟨?_, ?_, ?_⟩
  · intro hc
    simp only [hc, if_true]
    exact sync_branch_current cfg openOk pushOk st m t
  · intro hc
    simp only [hc, Bool.false_eq_true, if_false]
  · by_cases hc : (contentChanged st.current_media m ||
        forceUpdateAt st.start_timestamp t) = true
    · simp only [hc, if_true]
      try rfl
    · have hc' : (contentChanged st.current_media m ||
          forceUpdateAt st.start_timestamp t) = false := by
        revert hc
        cases contentChanged st.current_media m ||
          forceUpdateAt st.start_timestamp t <;> simp
      simp only [hc', Bool.false_eq_true, if_false]
      try rfl

/-- Witness for the amended C6 theorem: a content change pushed over a live
connection whose push fails still installs the new snapshot. -/
theorem c6_snapshot_amended_witness :
    (aggressive_filter mCrown = mCrown ∧ mCrown.isWatching = true ∧
     ignore_rejected mCrown = false) ∧
    (((contentChanged stWatching.current_media mCrown ||
        forceUpdateAt stWatching.start_timestamp 1090) = true →
      (detect_media_step cfgW true false stWatching
        (some mCrown) 1090).1.current_media = some mCrown) ∧
    ((contentChanged stWatching.current_media mCrown ||
        forceUpdateAt stWatching.start_timestamp 1090) = false →
      (detect_media_step cfgW true false stWatching
        (some mCrown) 1090).1.current_media = stWatching.current_media) ∧
    (detect_media_step cfgW true false stWatching (some mCrown) 1090).1 =
      (detect_media_step cfgW true true stWatching (some mCrown) 1090).1) :=
  ⟨⟨by decide, by decide, by decide⟩,
   c6_snapshot_amended cfgW true false true stWatching mCrown 1090
     (by decide) (by decide) (by decide)⟩

/-- Claim C8, counterexample: a forced refresh of *unchanged* content over a
live connection performs the image lookup (once), contradicting "never on a
forced refresh". -/
theorem c8_image_lookup_counterexample :
    contentChanged stWatching.current_media mShowA1 = false ∧
    forceUpdateAt stWatching.start_timestamp 1180 = true ∧
    (detect_media_step cfgW true true stWatching
      (some mShowA1) 1180).2.imageLookups = 1 := by
  decide

/-- Claim C8, amended: the image lookup runs exactly once per
synchronization cycle — content change or forced refresh alike — whenever an
`rpc` object exists after the optional reconnect, and never otherwise. -/
theorem c8_image_lookup_amended (cfg : Config) (openOk pushOk : Bool)
    (st : AppState) (m : MediaInfo) (t : Nat)
    (h1 : aggressive_filter m = m) (h2 : m.isWatching = true)
    (h3 : ignore_rejected m = false) :
    (detect_media_step cfg openOk pushOk st (some m) t).2.imageLookups =
      (if (contentChanged st.current_media m ||
          forceUpdateAt st.start_timestamp t) &&
          (detect_media_step cfg openOk pushOk st (some m) t).1.rpc.isSome
        then 1 else 0) := by
  rw [detect_media_step_watching cfg openOk pushOk st m t h1 h2 h3]
  by_cases hc : (contentChanged st.current_media m ||
      forceUpdateAt st.start_timestamp t) = true
  · simp only [hc, if_true, Bool.true_and]
    exact (sync_branch_push cfg openOk pushOk st m t).1
  · have hc' : (contentChanged st.current_media m ||
        forceUpdateAt st.start_timestamp t) = false := by
      revert hc
      cases contentChanged st.current_media m ||
        forceUpdateAt st.start_timestamp t <;> simp
    simp only [hc', Bool.false_eq_true, if_false, Bool.false_and]
    try rfl

/-- Witness for the amended C8 theorem: the forced-refresh cycle of the C8
counterexample satisfies the amended accounting. -/
theorem c8_image_lookup_amended_witness :
    (aggressive_filter mShowA1 = mShowA1 ∧ mShowA1.isWatching = true ∧
     ignore_rejected mShowA1 = false) ∧
    (detect_media_step cfgW true true stWatching
      (some mShowA1) 1180).2.imageLookups =
      (if (contentChanged stWatching.current_media mShowA1 ||
          forceUpdateAt stWatching.start_timestamp 1180) &&
          (detect_media_step cfgW true true stWatching
            (some mShowA1) 1180).1.rpc.isSome
        then 1 else 0) :=
  ⟨⟨by decide, by decide, by decide⟩,
   c8_image_lookup_amended cfgW true true stWatching mShowA1 1180
     (by decide) (by decide) (by decide)⟩

/-- Claim C2, counterexample: with only `explorer.exe` running and a window
titled `"Project Files - Disney+"`, the system-process collector returns a
`detected_by_system` record, yet the title-based aggressive blanket filter
degrades it to not watching, and a cycle on it from the idle state stays
cleared — so the classifier is *not* bypassed entirely for
system-corroborated records. -/
theorem c2_bypass_counterexample :
    check_system_processes sysExplorerDisney = some recProjectFiles ∧
    recProjectFiles.detected_by_system = true ∧
    (aggressive_filter recProjectFiles).isWatching = false ∧
    (detect_media_step cfgW true true stIdle
      (check_system_processes sysExplorerDisney) 100).1.current_media =
      none := by
  decide

/-- Claim C2, amended: only the second-stage ignore-pattern classifier (and
the minimum-length rule) are bypassed for `detected_by_system` records — the
ignore-pattern rejection is never applied to them, and such a record that
passes the first-stage blanket filter is never degraded to not-watching; the
first-stage blanket filter itself applies regardless of provenance. -/
theorem c2_bypass_amended (cfg : Config) (openOk pushOk : Bool)
    (st : AppState) (m : MediaInfo) (t : Nat)
    (hdbs : m.detected_by_system = true) :
    (detect_media_step cfg openOk pushOk st (some m) t).2.ignoreFilterApplied =
      false ∧
    (aggressive_filter m = m → m.isWatching = true →
      ((detect_media_step cfg openOk pushOk st
        (some m) t).1.current_media).isSome = true) := by
  constructor
  · rcases aggressive_filter_cases m with haf | haf
    · by_cases hw : m.isWatching = true
      · have h3 : ignore_rejected m = false := by
          simp [ignore_rejected, hdbs]
        rw [detect_media_step_watching cfg openOk pushOk st m t haf hw h3]
        split
        · exact sync_branch_ignore cfg openOk pushOk st m t
        · rfl
      · have hw' : m.isWatching = false := by
          cases hb : m.isWatching
          · rfl
          · exact absurd hb hw
        have hstep : detect_media_step cfg openOk pushOk st (some m) t =
            clear_presence_branch st false := by
          simp only [detect_media_step, Option.getD, haf, hw',
            Bool.not_false, if_true]
        rw [hstep]
        exact clear_branch_ignore st false
    · have hstep : detect_media_step cfg openOk pushOk st (some m) t =
          clear_presence_branch st false := by
        simp only [detect_media_step, Option.getD, haf]
        rfl
      rw [hstep]
      exact clear_branch_ignore st false
  · intro haf hw
    have h3 : ignore_rejected m = false := by
      simp [ignore_rejected, hdbs]
    rw [detect_media_step_watching cfg openOk pushOk st m t haf hw h3]
    split
    next hcond =>
      rw [sync_branch_current]
      rfl
    next hcond =>
      have hcc : contentChanged st.current_media m = false := by
        revert hcond
        cases contentChanged st.current_media m <;> simp
      obtain ⟨-, hsome⟩ := contentChanged_false_svc st.current_media m hcc
      simpa using hsome

/-- Witness for the amended C2 theorem at a system-corroborated record that
passes the blanket filter. -/
theorem c2_bypass_amended_witness :
    mShowSys.detected_by_system = true ∧
    ((detect_media_step cfgW true true stIdle
      (some mShowSys) 50).2.ignoreFilterApplied = false ∧
    (aggressive_filter mShowSys = mShowSys → mShowSys.isWatching = true →
      ((detect_media_step cfgW true true stIdle
        (some mShowSys) 50).1.current_media).isSome = true)) :=
  ⟨by decide, c2_bypass_amended cfgW true true stIdle mShowSys 50 (by decide)⟩

/-- Helper: from the Disney process branch, the correlate-or-generic tail
always yields a watching, system-corroborated Disney record. -/
theorem disneyHostRest_props (ws : List Win) :
    (disneyHostRest ws).service = some Service.disney ∧
    (disneyHostRest ws).detected_by_system = true ∧
    (disneyHostRest ws).isWatching = true := by
  unfold disneyHostRest
  split <;> exact ⟨rfl, rfl, rfl⟩

/-- Helper: if some window title mentions Disney+ and some process matches
the Disney process-name list, the Disney loop returns a watching,
system-corroborated Disney record. -/
theorem disney_loop_finds (ws : List Win)
    (hfind : (findDisneyWindow ws).isSome = true) :
    ∀ ps : List Proc,
      (∃ p ∈ ps, (disney_process_names.any
        (fun d => lowerStr p.name == lowerStr d)) = true) →
      ∃ r, disney_loop ws ps = some r ∧ r.service = some Service.disney ∧
        r.detected_by_system = true ∧ r.isWatching = true := by
  intro ps
  induction ps with
  | nil =>
    rintro ⟨p, hp, -⟩
    exact absurd hp (List.not_mem_nil p)
  | cons q ps ih =>
    rintro ⟨p, hp, hmatch⟩
    obtain ⟨w, hw⟩ := Option.isSome_iff_exists.mp hfind
    simp only [disney_loop]
    by_cases hq : (disney_process_names.any
        (fun d => lowerStr q.name == lowerStr d)) = true
    · simp only [hq, if_true]
      split
      · split
        · rw [hw]
          exact ⟨_, rfl, rfl, rfl, rfl⟩
        · obtain ⟨a, b, c⟩ := disneyHostRest_props ws
          exact ⟨_, rfl, a, b, c⟩
      · obtain ⟨a, b, c⟩ := disneyHostRest_props ws
        exact ⟨_, rfl, a, b, c⟩
    · simp only [hq, Bool.false_eq_true, if_false]
      rcases List.mem_cons.mp hp with rfl | hps
      · exact absurd hmatch hq
      · exact ih ⟨p, hps, hmatch⟩

/-- Claim C10: `explorer.exe` is on the Disney+ candidate process list, so
whenever a process named `explorer.exe` runs (even with no Disney term in
its command line) and any window title contains `"Disney+"`,
`check_system_processes` returns a Disney+ record with
`detected_by_system = True` — window-title-only evidence promoted to
process-corroborated trust. -/
theorem c10_explorer_disney_promotion (st : SysState)
    (hp : ∃ p ∈ st.processes, lowerStr p.name = "explorer.exe" ∧
      strHas (lowerStr (String.intercalate " " p.cmdline)) "disney" = false)
    (hw : ∃ w ∈ st.windows, strHas w.title "Disney+" = true) :
    ∃ r, check_system_processes st = some r ∧
      r.service = some Service.disney ∧ r.detected_by_system = true ∧
      r.isWatching = true := by
  have hfind : (findDisneyWindow st.windows).isSome = true := by
    unfold findDisneyWindow
    exact List.find?_isSome.mpr hw
  obtain ⟨pp, hpm, hpe, -⟩ := hp
  have hmatch : (disney_process_names.any
      (fun d => lowerStr pp.name == lowerStr d)) = true := by
    refine List.any_eq_true.mpr ⟨"explorer.exe", ?_, ?_⟩
    · decide
    · rw [hpe]
      decide
  obtain ⟨r, hr, hprops⟩ :=
    disney_loop_finds st.windows hfind st.processes ⟨pp, hpm, hmatch⟩
  refine ⟨r, ?_, hprops⟩
  simp [check_system_processes, hr]

/-- Witness for C10 at the concrete explorer-only system state. -/
theorem c10_explorer_disney_promotion_witness :
    ((∃ p ∈ sysExplorerDisney.processes, lowerStr p.name = "explorer.exe" ∧
      strHas (lowerStr (String.intercalate " " p.cmdline)) "disney" = false) ∧
     (∃ w ∈ sysExplorerDisney.windows, strHas w.title "Disney+" = true)) ∧
    (∃ r, check_system_processes sysExplorerDisney = some r ∧
      r.service = some Service.disney ∧ r.detected_by_system = true ∧
      r.isWatching = true) :=
  ⟨⟨by decide, by decide⟩,
   c10_explorer_disney_promotion sysExplorerDisney (by decide) (by decide)⟩
